import Mathlib

/-!
Verification of the webhook-triggered image-optimization pipeline
(`src/pages/api/webhook.ts`, `src/utils/assetReplacer.ts`).

The development shallowly embeds the three artifacts the specification
talks about:

* `applyImgixOptimizations` — the pure optimization-parameter deriver
  of `webhook.ts` (lines 76-115);
* `replaceAssetFromUrl` — the four-step asset-replacement protocol of
  `assetReplacer.ts`, embedded as a pure function over an explicit
  `Transport` that scripts the remote endpoints, returning the trace of
  remote calls it issued together with the outcome;
* `handler` — the webhook HTTP handler of `webhook.ts` (lines 125-229).

JavaScript strings are Lean `String`s, JS `String.prototype.includes`
is the executable substring test `hasSubstr`, JS object spread used for
header merging is `mergeHeader`, and the JS falsy test on optional
strings is `tokenFalsy` / `resolveFilename`.
-/

/-- `patAt p s` holds when the character list `p` is an exact leading
segment of `s` (JS `startsWith` at the current offset). -/
def patAt : List Char → List Char → Bool
  | [], _ => true
  | _ :: _, [] => false
  | a :: ps, b :: bs => a == b && patAt ps bs

/-- `hasPat p s` holds when `p` occurs contiguously somewhere in `s`. -/
def hasPat (p : List Char) : List Char → Bool
  | [] => patAt p []
  | b :: bs => patAt p (b :: bs) || hasPat p bs

/-- Substring test on strings: the embedding of JS
`s.includes(pat)`. -/
def hasSubstr (s pat : String) : Bool :=
  hasPat pat.data s.data

theorem patAt_append (p s t : List Char) (h : patAt p s = true) :
    patAt p (s ++ t) = true := by
  induction p generalizing s with
  | nil => simp [patAt]
  | cons a ps ih =>
    cases s with
    | nil => simp [patAt] at h
    | cons b bs =>
      simp only [patAt, Bool.and_eq_true, beq_iff_eq] at h
      simp only [List.cons_append, patAt, Bool.and_eq_true, beq_iff_eq]
      exact ⟨h.1, ih bs h.2⟩

theorem hasPat_nil_pat (s : List Char) : hasPat [] s = true := by
  cases s <;> simp [hasPat, patAt]

theorem hasPat_append_right (p s t : List Char) (h : hasPat p t = true) :
    hasPat p (s ++ t) = true := by
  induction s with
  | nil => simpa using h
  | cons b bs ih =>
    simp only [List.cons_append, hasPat, Bool.or_eq_true]
    exact Or.inr ih

theorem hasPat_append_left (p s t : List Char) (h : hasPat p s = true) :
    hasPat p (s ++ t) = true := by
  induction s with
  | nil =>
    cases p with
    | nil => exact hasPat_nil_pat t
    | cons a ps => simp [hasPat, patAt] at h
  | cons b bs ih =>
    simp only [hasPat, Bool.or_eq_true] at h
    simp only [List.cons_append, hasPat, Bool.or_eq_true]
    cases h with
    | inl h => exact Or.inl (patAt_append _ _ _ h)
    | inr h => exact Or.inr (ih h)

theorem hasSubstr_append_right (a b pat : String) (h : hasSubstr b pat = true) :
    hasSubstr (a ++ b) pat = true := by
  simpa [hasSubstr, String.data_append] using
    hasPat_append_right pat.data a.data b.data h

theorem hasSubstr_append_left (a b pat : String) (h : hasSubstr a pat = true) :
    hasSubstr (a ++ b) pat = true := by
  simpa [hasSubstr, String.data_append] using
    hasPat_append_left pat.data a.data b.data h

/-! ## The optimization-parameter deriver (`webhook.ts` lines 76-115) -/

/-- 5 MiB threshold (`LARGE_IMAGE_THRESHOLD`, `webhook.ts` line 78). -/
def LARGE_IMAGE_THRESHOLD : Nat := 5 * 1024 * 1024

/-- 10 MiB threshold (`VERY_LARGE_IMAGE_THRESHOLD`, line 79). -/
def VERY_LARGE_IMAGE_THRESHOLD : Nat := 10 * 1024 * 1024

/-- The parameter string `params` built by `applyImgixOptimizations`
(`webhook.ts` lines 84-107).  `height` is not consulted by the source,
so it is not a parameter here. -/
def imgixParams (width size : Nat) : String :=
  let params := "auto=format,compress"
  if size > LARGE_IMAGE_THRESHOLD then
    let params := params ++ "&q=75"
    let params := if width > 2000 then params ++ "&w=2000" else params
    if size > VERY_LARGE_IMAGE_THRESHOLD then params ++ "&dpr=2" else params
  else
    params ++ "&q=85"

/-- `applyImgixOptimizations(imageUrl, width, height, size)` of
`webhook.ts` lines 76-115: appends `imgixParams` with `&` when the URL
already has a `?`, else with `?`. -/
def applyImgixOptimizations (imageUrl : String) (width height size : Nat) : String :=
  if hasSubstr imageUrl "?" then
    imageUrl ++ "&" ++ imgixParams width size
  else
    imageUrl ++ "?" ++ imgixParams width size

/-- Closed-form case analysis of the parameter string built by the
deriver: the five concrete strings the source can produce. -/
theorem imgixParams_eq (width size : Nat) :
    imgixParams width size =
      if size ≤ 5 * 1024 * 1024 then "auto=format,compress&q=85"
      else if size ≤ 10 * 1024 * 1024 then
        (if 2000 < width then "auto=format,compress&q=75&w=2000"
         else "auto=format,compress&q=75")
      else
        (if 2000 < width then "auto=format,compress&q=75&w=2000&dpr=2"
         else "auto=format,compress&q=75&dpr=2") := by
  unfold imgixParams LARGE_IMAGE_THRESHOLD VERY_LARGE_IMAGE_THRESHOLD
  split_ifs <;> first | rfl | omega

theorem imgixParams_has_auto (w s : Nat) :
    hasSubstr (imgixParams w s) "auto=format,compress" = true := by
  rw [imgixParams_eq]; split_ifs <;> decide

theorem imgixParams_quality (w s : Nat) :
    hasSubstr (imgixParams w s) "q=85" = true ∨
      hasSubstr (imgixParams w s) "q=75" = true := by
  rw [imgixParams_eq]
  split_ifs <;> first | exact Or.inl (by decide) | exact Or.inr (by decide)

/-- Deriving on a URL that already contains `?` appends the parameter
string with `&`. -/
theorem apply_on_queried (u : String) (w h s : Nat)
    (hu : hasSubstr u "?" = true) :
    applyImgixOptimizations u w h s = u ++ "&" ++ imgixParams w s := by
  simp [applyImgixOptimizations, hu]

/-- Claim C1 (counterexample): as literally stated — quantified over
every url — the claim is false, because the input url may itself
contain the substring `dpr`.  Here sizeBytes = 100 ≤ 5 MiB, yet the
output contains `dpr` (inherited from the input url), contradicting
the claim's "contains neither dpr ...". -/
theorem c1_counterexample :
    100 ≤ 5 * 1024 * 1024 ∧
    hasSubstr (applyImgixOptimizations "https://x/a?dpr=0" 800 600 100) "dpr"
      = true :=
  ⟨by decide, by decide⟩

/-- Claim C1 (amended): the policy table holds of the parameter string
the deriver appends (rather than of the whole output URL, which also
contains whatever substrings the input url had): for sizeBytes ≤ 5 MiB
it contains `q=85` and neither `dpr` nor `w=2000`; for
5 MiB < sizeBytes ≤ 10 MiB it contains `q=75`, contains `w=2000`
exactly when width > 2000, and no `dpr`; for sizeBytes > 10 MiB it
contains `q=75` and `dpr=2`, and `w=2000` exactly when width > 2000. -/
theorem c1_policy_table (width size : Nat) :
    (size ≤ 5 * 1024 * 1024 →
      hasSubstr (imgixParams width size) "q=85" = true ∧
      hasSubstr (imgixParams width size) "dpr" = false ∧
      hasSubstr (imgixParams width size) "w=2000" = false) ∧
    (5 * 1024 * 1024 < size → size ≤ 10 * 1024 * 1024 →
      hasSubstr (imgixParams width size) "q=75" = true ∧
      (hasSubstr (imgixParams width size) "w=2000" = true ↔ 2000 < width) ∧
      hasSubstr (imgixParams width size) "dpr" = false) ∧
    (10 * 1024 * 1024 < size →
      hasSubstr (imgixParams width size) "q=75" = true ∧
      hasSubstr (imgixParams width size) "dpr=2" = true ∧
      (hasSubstr (imgixParams width size) "w=2000" = true ↔ 2000 < width)) := by
  have hP := imgixParams_eq width size
  refine ⟨fun hle => ?_, fun hgt hle => ?_, fun hgt => ?_⟩
  · rw [hP, if_pos hle]
    exact ⟨by decide, by decide, by decide⟩
  · rw [hP, if_neg (by omega), if_pos hle]
    by_cases hw : 2000 < width
    · rw [if_pos hw]
      exact ⟨by decide, iff_of_true (by decide) hw, by decide⟩
    · rw [if_neg hw]
      exact ⟨by decide, iff_of_false (by decide) hw, by decide⟩
  · rw [hP, if_neg (by omega), if_neg (by omega)]
    by_cases hw : 2000 < width
    · rw [if_pos hw]
      exact ⟨by decide, by decide, iff_of_true (by decide) hw⟩
    · rw [if_neg hw]
      exact ⟨by decide, by decide, iff_of_false (by decide) hw⟩

/-- Claim C1 witness: the amended policy table evaluated at width 3000
and sizeBytes 11,000,000 (> 10 MiB). -/
theorem c1_policy_table_witness :
    hasSubstr (imgixParams 3000 11000000) "q=75" = true ∧
    hasSubstr (imgixParams 3000 11000000) "dpr=2" = true ∧
    (hasSubstr (imgixParams 3000 11000000) "w=2000" = true ↔ 2000 < 3000) :=
  (c1_policy_table 3000 11000000).2.2 (by decide)

/-- Claim C5: every derived URL contains `auto=format,compress` and a
quality term; the parameter string is joined with `&` when the input
already contains `?` and with `?` otherwise; and since every output
contains a `?`, deriving again appends a second `&`-joined parameter
string rather than replacing the first. -/
theorem c5_parameter_placement (url : String) (w h s w2 h2 s2 : Nat) :
    hasSubstr (applyImgixOptimizations url w h s) "auto=format,compress" = true ∧
    (hasSubstr (applyImgixOptimizations url w h s) "q=85" = true ∨
      hasSubstr (applyImgixOptimizations url w h s) "q=75" = true) ∧
    applyImgixOptimizations url w h s =
      (if hasSubstr url "?" then url ++ "&" ++ imgixParams w s
       else url ++ "?" ++ imgixParams w s) ∧
    hasSubstr (applyImgixOptimizations url w h s) "?" = true ∧
    applyImgixOptimizations (applyImgixOptimizations url w h s) w2 h2 s2 =
      applyImgixOptimizations url w h s ++ "&" ++ imgixParams w2 s2 := by
  have hauto := imgixParams_has_auto w s
  have hqual := imgixParams_quality w s
  by_cases hq : hasSubstr url "?" = true
  · have hout : applyImgixOptimizations url w h s = url ++ "&" ++ imgixParams w s :=
      apply_on_queried url w h s hq
    have h4 : hasSubstr (applyImgixOptimizations url w h s) "?" = true := by
      rw [hout]
      exact hasSubstr_append_left _ _ _ (hasSubstr_append_left _ _ _ hq)
    refine ⟨?_, ?_, rfl, h4, apply_on_queried _ w2 h2 s2 h4⟩
    · rw [hout]; exact hasSubstr_append_right _ _ _ hauto
    · rw [hout]
      cases hqual with
      | inl hc => exact Or.inl (hasSubstr_append_right _ _ _ hc)
      | inr hc => exact Or.inr (hasSubstr_append_right _ _ _ hc)
  · have hout : applyImgixOptimizations url w h s = url ++ "?" ++ imgixParams w s := by
      simp [applyImgixOptimizations, hq]
    have h4 : hasSubstr (applyImgixOptimizations url w h s) "?" = true := by
      rw [hout]
      exact hasSubstr_append_left _ _ _ (hasSubstr_append_right _ _ _ (by decide))
    refine ⟨?_, ?_, rfl, h4, apply_on_queried _ w2 h2 s2 h4⟩
    · rw [hout]; exact hasSubstr_append_right _ _ _ hauto
    · rw [hout]
      cases hqual with
      | inl hc => exact Or.inl (hasSubstr_append_right _ _ _ hc)
      | inr hc => exact Or.inr (hasSubstr_append_right _ _ _ hc)

/-- Claim C6: the two end-to-end scenarios of the specification,
evaluated on the embedded deriver. -/
theorem c6_end_to_end :
    applyImgixOptimizations "https://x/img.jpg" 3000 1000 11000000
      = "https://x/img.jpg?auto=format,compress&q=75&w=2000&dpr=2" ∧
    applyImgixOptimizations "https://x/img.jpg?v=2" 800 600 1000000
      = "https://x/img.jpg?v=2&auto=format,compress&q=85" :=
  ⟨by decide, by decide⟩

/-- Claim C10: the deriver never reads its height argument, so its
output is the same for any two heights. -/
theorem c10_height_independent (url : String) (w h1 h2 s : Nat) :
    applyImgixOptimizations url w h1 s = applyImgixOptimizations url w h2 s :=
  rfl

/-! ## The asset replacer (`src/utils/assetReplacer.ts`)

`replaceAssetFromUrl` performs four sequential remote calls through
`node-fetch`.  The embedding scripts the remote world as a `Transport`
(a response for each request the code can issue) and returns, besides
the `Except` outcome, the list of remote calls actually issued, so that
short-circuiting claims can be stated. -/

/-- A simplified HTTP response as the code observes it: `status`,
`statusText`, and the body text returned by `.text()`. -/
structure HttpResponse where
  status : Nat
  statusText : String
  body : String
  deriving DecidableEq

/-- `node-fetch`'s `response.ok`: status in the 2xx range. -/
def HttpResponse.ok (r : HttpResponse) : Bool :=
  200 ≤ r.status && r.status < 300

/-- Attributes of the step-1 response (`UploadRequestResponse` of
`assetReplacer.ts`): the pre-signed `url` and the `request_headers`. -/
structure UploadRequestRespAttrs where
  url : String
  request_headers : List (String × String)
  deriving DecidableEq

/-- The `data` object of the step-1 response. -/
structure UploadRequestRespData where
  id : String
  type : String
  attributes : UploadRequestRespAttrs
  deriving DecidableEq

/-- The parsed JSON of a successful step-1 response. -/
structure UploadRequestResponse where
  data : UploadRequestRespData
  deriving DecidableEq

/-- Attributes of the `data` object of the step-4 response
(`AssetUpdateResponse`); the source types them as an opaque record, so
values are modelled as strings. -/
structure AssetUpdateData where
  id : String
  type : String
  attributes : List (String × String)
  deriving DecidableEq

/-- The parsed JSON of a successful step-4 response. -/
structure AssetUpdateResponse where
  data : AssetUpdateData
  deriving DecidableEq

/-- Attributes of the step-1 request body. -/
structure UploadRequestBodyAttrs where
  filename : String
  deriving DecidableEq

/-- The `data` object of the step-1 request body. -/
structure UploadRequestBodyData where
  type : String
  attributes : UploadRequestBodyAttrs
  deriving DecidableEq

/-- Step-1 request body: `data.type` and `data.attributes.filename`. -/
structure UploadRequestBody where
  data : UploadRequestBodyData
  deriving DecidableEq

/-- Attributes of the step-4 (finalize) request body. -/
structure FinalizeBodyAttrs where
  path : String
  deriving DecidableEq

/-- The `data` object of the step-4 request body. -/
structure FinalizeBodyData where
  id : String
  type : String
  attributes : FinalizeBodyAttrs
  deriving DecidableEq

/-- Step-4 request body: the asset's existing `id`/`type` plus the
`path` attribute. -/
structure FinalizeBody where
  data : FinalizeBodyData
  deriving DecidableEq

/-- One remote call issued by `replaceAssetFromUrl`, with everything
the code puts on the wire. -/
inductive RemoteCall where
  | createUploadRequest (url : String) (headers : List (String × String))
      (body : UploadRequestBody)
  | fetchSource (url : String)
  | stageUpload (url : String) (headers : List (String × String))
      (body : List Nat)
  | finalize (url : String) (headers : List (String × String))
      (body : FinalizeBody)
  deriving DecidableEq

/-- Whether a remote call is the step-1 create-upload-request call. -/
def RemoteCall.isCreateUploadRequest : RemoteCall → Bool
  | .createUploadRequest _ _ _ => true
  | _ => false

/-- A scripted remote world: for each request the code can issue, the
response it would get.  Step 1 and step 4 responses come with both the
raw `HttpResponse` (for the failure branches, which read `.text()`)
and the parsed JSON (for the success branches, which call `.json()`);
step 2 comes with the buffered body bytes. -/
structure Transport where
  uploadRequest : UploadRequestBody → HttpResponse × UploadRequestResponse
  fetchSource : String → HttpResponse × List Nat
  stageUpload : String → List (String × String) → List Nat → HttpResponse
  finalize : FinalizeBody → HttpResponse × AssetUpdateResponse

/-- The distinct failure kinds of the replacement protocol, each
carrying what the corresponding `throw new Error(...)` site of
`assetReplacer.ts` interpolates into its message. -/
inductive ReplaceError where
  | missingParams
  | stageRequestFailed (status : Nat) (body : String)
  | sourceFetchFailed (status : Nat) (statusText : String)
  | stageUploadFailed (status : Nat) (statusText : String)
  | finalizeFailed (status : Nat) (body : String)
  deriving DecidableEq

/-- JS falsy test on the optional API token (`!apiToken`): true for an
absent or empty token. -/
def tokenFalsy : Option String → Bool
  | none => true
  | some s => s == ""

/-- The fixed content-store host (`assetReplacer.ts` line 60). -/
def baseUrl : String := "https://site-api.datocms.com"

/-- The authenticated JSON headers of `assetReplacer.ts` lines 61-66. -/
def requestHeaders (apiToken : String) : List (String × String) :=
  [("Authorization", "Bearer " ++ apiToken),
   ("Content-Type", "application/json"),
   ("Accept", "application/json"),
   ("X-Api-Version", "3")]

/-- JS `filename || 'optimized-image.jpg'` (line 76): the default is
used when the filename is absent — or empty, since `""` is falsy. -/
def resolveFilename : Option String → String
  | none => "optimized-image.jpg"
  | some s => if s = "" then "optimized-image.jpg" else s

/-- The step-1 request body literal of lines 72-79. -/
def mkUploadRequestBody (filename : Option String) : UploadRequestBody :=
  ⟨⟨"upload_request", ⟨resolveFilename filename⟩⟩⟩

/-- The step-4 request body literal of lines 123-131. -/
def mkFinalizeBody (assetId uploadPath : String) : FinalizeBody :=
  ⟨⟨assetId, "upload", ⟨uploadPath⟩⟩⟩

/-- JS object spread `\x7b...m, k: v\x7d` on a record with unique keys:
if `k` is already a key its value is overridden in place, otherwise
the pair is appended. -/
def mergeHeader (m : List (String × String)) (k v : String) :
    List (String × String) :=
  if m.any (fun p => p.1 = k) then
    m.map (fun p => if p.1 = k then (k, v) else p)
  else
    m ++ [(k, v)]

/-- The four-step replacement protocol of `assetReplacer.ts` lines
46-146, embedded over a scripted `Transport`.  Returns the trace of
remote calls issued and the outcome.  Each `if` mirrors an
`if (!response.ok) throw` site of the source. -/
def replaceAssetFromUrl (t : Transport) (apiToken : Option String)
    (assetId : String) (newImageUrl : String) (filename : Option String) :
    List RemoteCall × Except ReplaceError AssetUpdateResponse :=
  if assetId = "" || tokenFalsy apiToken then
    ([], Except.error ReplaceError.missingParams)
  else
    let headers := requestHeaders (apiToken.getD "")
    let reqBody := mkUploadRequestBody filename
    let call1 := RemoteCall.createUploadRequest (baseUrl ++ "/upload-requests")
      headers reqBody
    let r1 := t.uploadRequest reqBody
    if r1.1.ok = false then
      ([call1], Except.error (ReplaceError.stageRequestFailed r1.1.status r1.1.body))
    else
      let s3Url := r1.2.data.attributes.url
      let s3Headers := r1.2.data.attributes.request_headers
      let r2 := t.fetchSource newImageUrl
      let call2 := RemoteCall.fetchSource newImageUrl
      if r2.1.ok = false then
        ([call1, call2],
         Except.error (ReplaceError.sourceFetchFailed r2.1.status r2.1.statusText))
      else
        let imageBuffer := r2.2
        let putHeaders := mergeHeader s3Headers "Content-Length"
          (toString imageBuffer.length)
        let call3 := RemoteCall.stageUpload s3Url putHeaders imageBuffer
        let r3 := t.stageUpload s3Url putHeaders imageBuffer
        if r3.ok = false then
          ([call1, call2, call3],
           Except.error (ReplaceError.stageUploadFailed r3.status r3.statusText))
        else
          let finBody := mkFinalizeBody assetId r1.2.data.id
          let call4 := RemoteCall.finalize (baseUrl ++ "/uploads/" ++ assetId)
            headers finBody
          let r4 := t.finalize finBody
          if r4.1.ok = false then
            ([call1, call2, call3, call4],
             Except.error (ReplaceError.finalizeFailed r4.1.status r4.1.body))
          else
            ([call1, call2, call3, call4], Except.ok r4.2)

/-- The filename carried by the first remote call of a trace, when that
call is a create-upload-request. -/
def firstCallFilename (calls : List RemoteCall) : Option String :=
  match calls with
  | RemoteCall.createUploadRequest _ _ b :: _ => some b.data.attributes.filename
  | _ => none

/-- First-match lookup of a header value by exact name, as a JS
property read on the merged header object. -/
def headerValue (k : String) : List (String × String) → Option String
  | [] => none
  | p :: rest => if k = p.1 then some p.2 else headerValue k rest

theorem headerValue_map_override_same (m : List (String × String)) (k v : String)
    (ha : m.any (fun p => p.1 = k) = true) :
    headerValue k (m.map (fun q => if q.1 = k then (k, v) else q)) = some v := by
  induction m with
  | nil => simp at ha
  | cons p rest ih =>
    obtain ⟨pk, pv⟩ := p
    by_cases hp : pk = k
    · subst hp; simp [headerValue]
    · have ha2 : rest.any (fun p => p.1 = k) = true := by simpa [hp] using ha
      simp [headerValue, hp, Ne.symm hp, ih ha2]

theorem headerValue_append_single_same (m : List (String × String)) (k v : String)
    (ha : m.any (fun p => p.1 = k) = false) :
    headerValue k (m ++ [(k, v)]) = some v := by
  induction m with
  | nil => simp [headerValue]
  | cons p rest ih =>
    obtain ⟨pk, pv⟩ := p
    have hp : ¬ (pk = k) := by
      intro h; simp [h] at ha
    have ha2 : rest.any (fun p => p.1 = k) = false := by simpa [hp] using ha
    simp [headerValue, Ne.symm hp, ih ha2]

theorem headerValue_map_override_other (m : List (String × String))
    (k v k2 : String) (hk : k2 ≠ k) :
    headerValue k2 (m.map (fun q => if q.1 = k then (k, v) else q))
      = headerValue k2 m := by
  induction m with
  | nil => simp
  | cons p rest ih =>
    obtain ⟨pk, pv⟩ := p
    by_cases hp : pk = k
    · subst hp; simp [headerValue, hk, ih]
    · by_cases h2 : k2 = pk <;> simp [headerValue, hp, h2, ih]

theorem headerValue_append_single_other (m : List (String × String))
    (k v k2 : String) (hk : k2 ≠ k) :
    headerValue k2 (m ++ [(k, v)]) = headerValue k2 m := by
  induction m with
  | nil => simp [headerValue, hk]
  | cons p rest ih =>
    obtain ⟨pk, pv⟩ := p
    by_cases h2 : k2 = pk <;> simp [headerValue, h2, ih]

/-- Looking up the overridden key in a spread-merged header record
yields the override value. -/
theorem headerValue_mergeHeader_same (m : List (String × String)) (k v : String) :
    headerValue k (mergeHeader m k v) = some v := by
  unfold mergeHeader
  split
  · rename_i ha
    exact headerValue_map_override_same m k v ha
  · rename_i ha
    exact headerValue_append_single_same m k v (by rwa [Bool.not_eq_true] at ha)

/-- Looking up any other key in a spread-merged header record yields
the value the original record had. -/
theorem headerValue_mergeHeader_other (m : List (String × String))
    (k v k2 : String) (hk : k2 ≠ k) :
    headerValue k2 (mergeHeader m k v) = headerValue k2 m := by
  unfold mergeHeader
  split
  · exact headerValue_map_override_other m k v k2 hk
  · exact headerValue_append_single_other m k v k2 hk

/-- A scripted transport whose step-1 call fails with HTTP 500 and body
text `boom`. -/
def failTransport : Transport where
  uploadRequest := fun _ =>
    (⟨500, "Internal Server Error", "boom"⟩, ⟨⟨"", "", ⟨"", []⟩⟩⟩)
  fetchSource := fun _ => (⟨200, "OK", ""⟩, [])
  stageUpload := fun _ _ _ => ⟨200, "OK", ""⟩
  finalize := fun _ => (⟨200, "OK", ""⟩, ⟨⟨"", "", []⟩⟩)

/-- A scripted transport on which every step succeeds; its finalize
endpoint echoes the asset id from the request body, as the content
store's interface specifies. -/
def okTransport : Transport where
  uploadRequest := fun _ =>
    (⟨200, "OK", ""⟩,
     ⟨⟨"path123", "upload_request",
       ⟨"https://s3/put", [("Content-Length", "999"), ("x-amz-acl", "private")]⟩⟩⟩)
  fetchSource := fun _ => (⟨200, "OK", ""⟩, [10, 20, 30])
  stageUpload := fun _ _ _ => ⟨200, "OK", ""⟩
  finalize := fun b => (⟨200, "OK", ""⟩, ⟨⟨b.data.id, "upload", []⟩⟩)

/-- Claim C2: when the step-1 create-upload-request call returns a
non-2xx response, the trace consists of that single call — the source
fetch, staging PUT and finalize PUT are never attempted — and the
operation fails with `stageRequestFailed` carrying the response's
status code and body. -/
theorem c2_step1_failure (t : Transport) (token aid url : String)
    (fn : Option String) (haid : aid ≠ "") (htok : token ≠ "")
    (hfail : (t.uploadRequest (mkUploadRequestBody fn)).1.ok = false) :
    (replaceAssetFromUrl t (some token) aid url fn).1 =
      [RemoteCall.createUploadRequest (baseUrl ++ "/upload-requests")
        (requestHeaders token) (mkUploadRequestBody fn)] ∧
    ((replaceAssetFromUrl t (some token) aid url fn).1.all
      RemoteCall.isCreateUploadRequest) = true ∧
    (replaceAssetFromUrl t (some token) aid url fn).2 =
      Except.error (ReplaceError.stageRequestFailed
        (t.uploadRequest (mkUploadRequestBody fn)).1.status
        (t.uploadRequest (mkUploadRequestBody fn)).1.body) := by
  have hc : (aid = "" || tokenFalsy (some token)) = false := by
    simp [tokenFalsy, haid, htok]
  simp [replaceAssetFromUrl, hc, hfail, RemoteCall.isCreateUploadRequest]

/-- Claim C2 witness: the short-circuit theorem evaluated on a concrete
transport whose step 1 fails with status 500 and body `boom`. -/
theorem c2_witness :
    (replaceAssetFromUrl failTransport (some "tok") "a1" "https://src" none).1 =
      [RemoteCall.createUploadRequest (baseUrl ++ "/upload-requests")
        (requestHeaders "tok") (mkUploadRequestBody none)] ∧
    ((replaceAssetFromUrl failTransport (some "tok") "a1" "https://src" none).1.all
      RemoteCall.isCreateUploadRequest) = true ∧
    (replaceAssetFromUrl failTransport (some "tok") "a1" "https://src" none).2 =
      Except.error (ReplaceError.stageRequestFailed 500 "boom") :=
  c2_step1_failure failTransport "tok" "a1" "https://src" none
    (by decide) (by decide) rfl

/-- Claim C7: when the run reaches step 3, the headers of the staging
PUT are the step-1 `request_headers` merged with a `Content-Length`
set to the byte length of the buffered payload: looking up
`Content-Length` yields the explicit override (even on a name
collision), and looking up any other name yields the step-1 value. -/
theorem c7_staging_headers (t : Transport) (token aid url : String)
    (fn : Option String) (haid : aid ≠ "") (htok : token ≠ "")
    (h1 : (t.uploadRequest (mkUploadRequestBody fn)).1.ok = true)
    (h2 : (t.fetchSource url).1.ok = true) :
    (replaceAssetFromUrl t (some token) aid url fn).1[2]? =
      some (RemoteCall.stageUpload
        (t.uploadRequest (mkUploadRequestBody fn)).2.data.attributes.url
        (mergeHeader
          (t.uploadRequest (mkUploadRequestBody fn)).2.data.attributes.request_headers
          "Content-Length" (toString (t.fetchSource url).2.length))
        (t.fetchSource url).2) ∧
    headerValue "Content-Length"
      (mergeHeader
        (t.uploadRequest (mkUploadRequestBody fn)).2.data.attributes.request_headers
        "Content-Length" (toString (t.fetchSource url).2.length))
      = some (toString (t.fetchSource url).2.length) ∧
    (∀ k, k ≠ "Content-Length" →
      headerValue k
        (mergeHeader
          (t.uploadRequest (mkUploadRequestBody fn)).2.data.attributes.request_headers
          "Content-Length" (toString (t.fetchSource url).2.length))
        = headerValue k
            (t.uploadRequest (mkUploadRequestBody fn)).2.data.attributes.request_headers) := by
  have hc : (aid = "" || tokenFalsy (some token)) = false := by
    simp [tokenFalsy, haid, htok]
  refine ⟨?_, headerValue_mergeHeader_same _ _ _,
    fun k hk => headerValue_mergeHeader_other _ _ _ _ hk⟩
  simp only [replaceAssetFromUrl, hc, Bool.false_eq_true, if_false, h1, h2,
    Bool.true_eq_false, Option.getD_some]
  split
  · rfl
  split <;> rfl

/-- Claim C7 witness: on a concrete all-success transport whose step-1
headers already contain a colliding `Content-Length: 999`, the staging
PUT carries `Content-Length: 3` (the 3-byte buffer) and keeps the other
header untouched. -/
theorem c7_witness :
    (replaceAssetFromUrl okTransport (some "tok") "a1" "https://src" none).1[2]? =
      some (RemoteCall.stageUpload "https://s3/put"
        [("Content-Length", "3"), ("x-amz-acl", "private")] [10, 20, 30]) ∧
    headerValue "Content-Length" [("Content-Length", "3"), ("x-amz-acl", "private")]
      = some "3" ∧
    headerValue "x-amz-acl" [("Content-Length", "3"), ("x-amz-acl", "private")]
      = headerValue "x-amz-acl" [("Content-Length", "999"), ("x-amz-acl", "private")] := by
  have h := c7_staging_headers okTransport "tok" "a1" "https://src" none
    (by decide) (by decide) rfl rfl
  exact ⟨h.1, h.2.1, h.2.2 "x-amz-acl" (by decide)⟩

/-- Claim C8 (counterexample): the claim says the step-1 body filename
equals the caller-supplied filename whenever one is given, and the
default is used exactly when none is given; but for the supplied (empty)
filename `""` the code's JS-falsy test substitutes the default, so the
body filename is not the caller's value. -/
theorem c8_counterexample :
    firstCallFilename
        (replaceAssetFromUrl failTransport (some "tok") "a1" "https://src"
          (some "")).1
      = some "optimized-image.jpg" ∧
    some "optimized-image.jpg" ≠ some ("" : String) :=
  ⟨by decide, by decide⟩

/-- Claim C8 (amended): the step-1 request body is
`data.type = "upload_request"` with `data.attributes.filename` equal to
the caller-supplied filename when a non-empty one is given, and equal
to the default `optimized-image.jpg` when the filename is absent or
empty. -/
theorem c8_request_body (t : Transport) (token aid url : String)
    (fn : Option String) (haid : aid ≠ "") (htok : token ≠ "") :
    (replaceAssetFromUrl t (some token) aid url fn).1.head? =
      some (RemoteCall.createUploadRequest (baseUrl ++ "/upload-requests")
        (requestHeaders token) ⟨⟨"upload_request", ⟨resolveFilename fn⟩⟩⟩) ∧
    (∀ s, s ≠ "" → resolveFilename (some s) = s) ∧
    resolveFilename none = "optimized-image.jpg" ∧
    resolveFilename (some "") = "optimized-image.jpg" := by
  have hc : (aid = "" || tokenFalsy (some token)) = false := by
    simp [tokenFalsy, haid, htok]
  refine ⟨?_, fun s hs => by simp [resolveFilename, hs], rfl, rfl⟩
  simp only [replaceAssetFromUrl, hc, Bool.false_eq_true, if_false,
    Option.getD_some]
  split
  · rfl
  split
  · rfl
  split
  · rfl
  split <;> rfl

/-- Claim C8 witness: the amended statement evaluated at a concrete
transport with no filename supplied. -/
theorem c8_witness :
    (replaceAssetFromUrl failTransport (some "tok") "a1" "https://src" none).1.head? =
      some (RemoteCall.createUploadRequest (baseUrl ++ "/upload-requests")
        (requestHeaders "tok") ⟨⟨"upload_request", ⟨"optimized-image.jpg"⟩⟩⟩) ∧
    (∀ s, s ≠ "" → resolveFilename (some s) = s) ∧
    resolveFilename none = "optimized-image.jpg" ∧
    resolveFilename (some "") = "optimized-image.jpg" :=
  c8_request_body failTransport "tok" "a1" "https://src" none
    (by decide) (by decide)

/-- Claim C3: on every fully successful run, the step-4 finalize call
goes to the per-asset endpoint with a body whose `data.id` is the input
assetId, `data.type` is `upload`, and `data.attributes.path` is the
`id` returned by step 1; and — assuming the store echoes the asset id
in its finalize response, as its interface specifies — the returned
result's id equals the input assetId. -/
theorem c3_finalize_identity (t : Transport) (token aid url : String)
    (fn : Option String) (r : AssetUpdateResponse)
    (hconf : ∀ b, (t.finalize b).2.data.id = b.data.id)
    (hok : (replaceAssetFromUrl t (some token) aid url fn).2 = Except.ok r) :
    (replaceAssetFromUrl t (some token) aid url fn).1[3]? =
      some (RemoteCall.finalize (baseUrl ++ "/uploads/" ++ aid)
        (requestHeaders token)
        (mkFinalizeBody aid (t.uploadRequest (mkUploadRequestBody fn)).2.data.id)) ∧
    (mkFinalizeBody aid (t.uploadRequest (mkUploadRequestBody fn)).2.data.id).data.id
      = aid ∧
    (mkFinalizeBody aid (t.uploadRequest (mkUploadRequestBody fn)).2.data.id).data.type
      = "upload" ∧
    (mkFinalizeBody aid
        (t.uploadRequest (mkUploadRequestBody fn)).2.data.id).data.attributes.path
      = (t.uploadRequest (mkUploadRequestBody fn)).2.data.id ∧
    r.data.id = aid := by
  simp only [replaceAssetFromUrl, Option.getD_some] at hok ⊢
  split at hok
  · simp at hok
  · rename_i hguard
    split at hok
    · simp at hok
    · rename_i hr1
      split at hok
      · simp at hok
      · rename_i hr2
        split at hok
        · simp at hok
        · rename_i hr3
          split at hok
          · simp at hok
          · rename_i hr4
            rw [if_neg hguard, if_neg hr1, if_neg hr2, if_neg hr3, if_neg hr4]
            have hr : r =
                (t.finalize (mkFinalizeBody aid
                  (t.uploadRequest (mkUploadRequestBody fn)).2.data.id)).2 := by
              simpa using hok.symm
            refine ⟨rfl, rfl, rfl, rfl, ?_⟩
            rw [hr]
            exact hconf _

/-- Claim C3 witness: a fully successful run on a concrete conformant
transport; the finalize body carries `path123` (the step-1 id) and the
returned id is the input asset id `a1`. -/
theorem c3_witness :
    (replaceAssetFromUrl okTransport (some "tok") "a1" "https://src" none).1[3]? =
      some (RemoteCall.finalize (baseUrl ++ "/uploads/" ++ "a1")
        (requestHeaders "tok") (mkFinalizeBody "a1" "path123")) ∧
    (mkFinalizeBody "a1" "path123").data.id = "a1" ∧
    (mkFinalizeBody "a1" "path123").data.type = "upload" ∧
    (mkFinalizeBody "a1" "path123").data.attributes.path = "path123" ∧
    (⟨⟨"a1", "upload", []⟩⟩ : AssetUpdateResponse).data.id = "a1" :=
  c3_finalize_identity okTransport "tok" "a1" "https://src" none
    ⟨⟨"a1", "upload", []⟩⟩ (fun _ => rfl) rfl

/-! ## The webhook handler (`src/pages/api/webhook.ts` lines 125-229)

The handler is embedded as a total function from the request to the
rendered response.  All code on the handler's replacement path is
commented out in the source (lines 164-207 perform no observable
action), so the embedding has no replacer call; `assetReplaced` is the
constant `false` of line 141.  The `catch` branch of lines 220-228 is
unreachable in the embedding because every embedded operation is
total. -/

/-- The image attributes of the webhook payload entity. -/
structure ImageAttrs where
  size : Nat
  width : Nat
  height : Nat
  url : String
  is_image : Bool
  filename : Option String
  deriving DecidableEq

/-- The entity of the webhook payload. -/
structure ImageEntity where
  id : String
  type : String
  attributes : ImageAttrs
  deriving DecidableEq

/-- The DatoCMS webhook payload.  The entity is optional because the
handler reads it through optional chaining. -/
structure WebhookPayload where
  entity_type : String
  event_type : String
  entity : Option ImageEntity
  deriving DecidableEq

/-- An incoming HTTP request: method plus parsed JSON body. -/
structure ApiRequest where
  method : String
  body : WebhookPayload
  deriving DecidableEq

/-- The JSON body the handler renders: either the 405 error object or
the 200 `WebhookResponse` object. -/
inductive HandlerBody where
  | methodNotAllowed (error : String)
  | ok (received : Bool) (message : String) (timestamp : String)
      (optimizedUrl : Option String) (assetReplaced : Bool)
      (newUploadId : Option String) (originalDeleted : Bool)
  deriving DecidableEq

/-- A rendered response: HTTP status plus JSON body. -/
structure HandlerResult where
  status : Nat
  body : HandlerBody
  deriving DecidableEq

/-- The `assetReplaced` field of the response body, when present. -/
def HandlerBody.assetReplacedField : HandlerBody → Option Bool
  | .ok _ _ _ _ ar _ _ => some ar
  | _ => none

/-- The webhook handler of `webhook.ts` lines 125-229.  `now` stands
for the timestamp the source takes from the clock. -/
def handler (now : String) (req : ApiRequest) : HandlerResult :=
  if req.method ≠ "POST" then
    ⟨405, HandlerBody.methodNotAllowed
      "Method not allowed. Only POST requests are accepted."⟩
  else
    let optimizedUrl : Option String :=
      if req.body.entity_type = "upload" then
        match req.body.entity with
        | some e =>
          if e.attributes.is_image then
            some (applyImgixOptimizations e.attributes.url e.attributes.width
              e.attributes.height e.attributes.size)
          else none
        | none => none
      else none
    ⟨200, HandlerBody.ok true "Webhook processed successfully" now
      optimizedUrl false none false⟩

/-- Claim C4: the handler answers 405 to every non-POST request,
answers 200 with `assetReplaced = false` in the body to every POST
(so a replacement failure can never change the HTTP status), and never
produces a 500 (the embedded handler is total; the source's 500 branch
is only reachable from an exception outside the replacement path). -/
theorem c4_status_policy (now : String) (req : ApiRequest) :
    (req.method ≠ "POST" → (handler now req).status = 405) ∧
    (req.method = "POST" →
      (handler now req).status = 200 ∧
      (handler now req).body.assetReplacedField = some false) ∧
    (handler now req).status ≠ 500 := by
  by_cases hm : req.method = "POST"
  · refine ⟨fun h => absurd hm h, fun _ => ?_, ?_⟩
    · simp [handler, hm, HandlerBody.assetReplacedField]
    · simp [handler, hm]
  · refine ⟨fun _ => ?_, fun h => absurd h hm, ?_⟩
    · simp [handler, hm]
    · simp [handler, hm]

/-- Claim C4 witness: the status policy evaluated on one GET and one
POST request with a concrete image payload. -/
theorem c4_witness :
    (handler "2026-01-01T00:00:00Z"
        ⟨"GET", ⟨"upload", "create",
          some ⟨"id1", "upload",
            ⟨11000000, 3000, 1000, "https://x/img.jpg", true, none⟩⟩⟩⟩).status
      = 405 ∧
    (handler "2026-01-01T00:00:00Z"
        ⟨"POST", ⟨"upload", "create",
          some ⟨"id1", "upload",
            ⟨11000000, 3000, 1000, "https://x/img.jpg", true, none⟩⟩⟩⟩).status
      = 200 ∧
    (handler "2026-01-01T00:00:00Z"
        ⟨"POST", ⟨"upload", "create",
          some ⟨"id1", "upload",
            ⟨11000000, 3000, 1000, "https://x/img.jpg", true, none⟩⟩⟩⟩).body.assetReplacedField
      = some false := by
  have h1 := (c4_status_policy "2026-01-01T00:00:00Z"
    ⟨"GET", ⟨"upload", "create",
      some ⟨"id1", "upload",
        ⟨11000000, 3000, 1000, "https://x/img.jpg", true, none⟩⟩⟩⟩).1 (by decide)
  have h2 := (c4_status_policy "2026-01-01T00:00:00Z"
    ⟨"POST", ⟨"upload", "create",
      some ⟨"id1", "upload",
        ⟨11000000, 3000, 1000, "https://x/img.jpg", true, none⟩⟩⟩⟩).2.1 rfl
  exact ⟨h1, h2.1, h2.2⟩

/-- Claim C9: for every POST request — whatever the entity type, image
flag or payload size — the handler's response is a 200 whose body has
`assetReplaced = false`: the source's replacer invocation is commented
out, so no run of the handler ever triggers a replacement. -/
theorem c9_asset_never_replaced (now : String) (body : WebhookPayload) :
    (handler now ⟨"POST", body⟩).status = 200 ∧
    (handler now ⟨"POST", body⟩).body.assetReplacedField = some false := by
  simp [handler, HandlerBody.assetReplacedField]
